import Mathlib

/-!
Verification development for a Playwright + Cucumber test-automation harness.

The definitions below are a shallow embedding of the repository's
lifecycle core: the browser resource manager (`BrowserManager.ts`), the
Cucumber `Before`/`After` hooks (`hooks.ts`), the per-scenario world
(`World.ts`), the REST session manager (`RESTUtils`, second half of
`World.ts`), and the JSON-path payload-modification step of
`PaypalAPI_Steps.ts`.  Asynchronous effects are modelled by explicit
oracles (functions supplying the environment's answer to each external
call) and by event traces; thrown JavaScript errors are modelled with
`Except`.  JavaScript numbers that the claims touch are integral
(HTTP status codes, millisecond timestamps, 3-digit random numerals),
so numerals are embedded as `Int`/`Nat`.
-/

/-- JSON values as manipulated by the step definitions.  `undef` models
the JavaScript value `undefined`, which `parseSmartValue` can return. -/
inductive Json where
  | null : Json
  | undef : Json
  | bool (b : Bool) : Json
  | num (n : Int) : Json
  | str (s : String) : Json
  | arr (xs : List Json) : Json
  | obj (fs : List (String × Json)) : Json

/-- One step of a definite JSON path: an object member or an array index. -/
inductive JStep where
  | field (k : String) : JStep
  | index (i : Nat) : JStep
deriving DecidableEq

/-- A definite JSON path (`$['a'][0]['b']` becomes
`[.field "a", .index 0, .field "b"]`). -/
abbrev JPath := List JStep

/-- Member lookup in a JSON object, first match wins (JavaScript objects
have unique keys). -/
def lookupField : List (String × Json) → String → Option Json
  | [], _ => none
  | (k', c) :: fs, k => if k' = k then some c else lookupField fs k

/-- Evaluate a definite JSON path, as `JSONPath({path, json})` does for a
path that names a single location; `none` when the path does not resolve. -/
def getPath : Json → JPath → Option Json
  | j, [] => some j
  | j, s :: p =>
      match s, j with
      | .field k, .obj fs =>
          match lookupField fs k with
          | some c => getPath c p
          | none => none
      | .index i, .arr xs =>
          match xs[i]? with
          | some c => getPath c p
          | none => none
      | _, _ => none


/-! ### JavaScript string primitives used by the step definitions -/

/-- Whitespace for the purpose of JavaScript `String.prototype.trim`
(the code points the repository's inputs can contain). -/
def jsWhitespace (c : Char) : Bool :=
  c = ' ' || c = '\t' || c = '\n' || c = '\r'

/-- JavaScript `value.trim()`. -/
def jsTrim (s : String) : String :=
  String.mk (((s.data.dropWhile jsWhitespace).reverse.dropWhile jsWhitespace).reverse)

/-- ASCII lowering of one character, for `toLowerCase` on the keyword
candidates `true`/`false`/`null`/`undefined`. -/
def asciiLower (c : Char) : Char :=
  if 'A' ≤ c ∧ c ≤ 'Z' then Char.ofNat (c.toNat + 32) else c

/-- JavaScript `s.toLowerCase()` restricted to ASCII. -/
def jsToLower (s : String) : String := String.mk (s.data.map asciiLower)

/-- Decimal rendering of a natural number, used for the template-literal
interpolation `${...}` and `String(...)` of integral JavaScript numbers. -/
def jsNatString (n : Nat) : String := Nat.repr n

/-- Decimal-digit run to a natural number; `none` when empty or a
non-digit appears (accumulator-passing helper). -/
def decNatAux : Nat → List Char → Option Nat
  | acc, [] => some acc
  | acc, c :: cs =>
      if '0' ≤ c ∧ c ≤ '9' then decNatAux (acc * 10 + (c.toNat - 48)) cs else none

/-- Parse a nonempty all-digit string as a natural number. -/
def decNat? : List Char → Option Nat
  | [] => none
  | c :: cs => decNatAux 0 (c :: cs)

/-- JavaScript `Number(value)` restricted to the integral numerals this
repository feeds it: optionally signed decimal integers, and the quirk
that a whitespace-only string converts to `0`.  (Fractional, hex and
exponent forms never arise in the fixtures or data tables and are
treated as non-numeric.) -/
def jsNumber (s : String) : Option Int :=
  match (jsTrim s).data with
  | [] => some 0
  | '-' :: ds => (decNat? ds).map (fun n => -(n : Int))
  | '+' :: ds => (decNat? ds).map (fun n => (n : Int))
  | ds => (decNat? ds).map (fun n => (n : Int))


/-- Function `parseSmartValue` from `PaypalAPI_Steps.ts`: converts strings like
`"123"`, `"true"`, `"null"` into real types, falling back to the string. -/
def parseSmartValue (value : String) : Json :=
  let trimmed := jsToLower (jsTrim value)
  if trimmed = "true" then .bool true
  else if trimmed = "false" then .bool false
  else if trimmed = "null" then .null
  else if trimmed = "undefined" then .undef
  else
    match jsNumber value with
    | some n => .num n
    | none => .str value


/-- JavaScript `finalValue.includes('<random>')` specialised to the
literal placeholder. -/
def containsRandom : List Char → Bool
  | '<' :: 'r' :: 'a' :: 'n' :: 'd' :: 'o' :: 'm' :: '>' :: _ => true
  | _ :: rest => containsRandom rest
  | [] => false

/-- JavaScript `finalValue.replace(/<random>/g, rep)`: every occurrence
of the placeholder is replaced by the same rendered numeral. -/
def replaceRandom (rep : List Char) : List Char → List Char
  | '<' :: 'r' :: 'a' :: 'n' :: 'd' :: 'o' :: 'm' :: '>' :: rest =>
      rep ++ replaceRandom rep rest
  | c :: rest => c :: replaceRandom rep rest
  | [] => []


/-! ### The payload-modification step
(`I modify the request payload with below values for respective json paths:`)

One data-table row carries a JSON path and a raw string value; each row
additionally draws `Math.random()` once, modelled by a natural number
`rnd < 900` so that the generated numeral is `100 + rnd`
(`Math.floor(100 + Math.random() * 900)`). -/

structure Row where
  path : JPath
  value : String
  rnd : Nat
deriving DecidableEq

/-- The value a row writes: trim, then if the placeholder occurs replace
every occurrence of `<random>` with the 3-digit numeral. -/
def rowFinalValue (value : String) (rnd : Nat) : String :=
  let t := jsTrim value
  if containsRandom t.data then
    String.mk (replaceRandom (jsNatString (100 + rnd)).data t.data)
  else t

/-- Rewrite the value stored under a given member key (all entries with
that key; JavaScript objects have at most one). -/
def mapField (k : String) (f : Json → Json) : List (String × Json) →
    List (String × Json)
  | [] => []
  | (a, c) :: fs =>
      if a = k then (a, f c) :: mapField k f fs else (a, c) :: mapField k f fs

/-- Rewrite the element at a given index when it exists. -/
def mapIdx (i : Nat) (f : Json → Json) (xs : List Json) : List Json :=
  match xs[i]? with
  | some c => xs.set i (f c)
  | none => xs

/-- Replace the value at a definite JSON path, leaving the document
unchanged when the path's terminal location does not exist (the
`JSONPath` callback fires only for matched locations). -/
def updateAt : JPath → Json → Json → Json
  | [], _, v => v
  | s :: p, j, v =>
      match s, j with
      | .field k, .obj fs => .obj (mapField k (fun c => updateAt p c v) fs)
      | .index i, .arr xs => .arr (mapIdx i (fun c => updateAt p c v) xs)
      | _, _ => j

/-- One row of the modification step: the `JSONPath` callback assigns
`full.parent[full.parentProperty] = parseSmartValue(finalValue)` when the
path matches an existing location and has a parent (is not the root). -/
def applyRow (j : Json) (r : Row) : Json :=
  if r.path ≠ [] ∧ (getPath j r.path).isSome then
    updateAt r.path j (parseSmartValue (rowFinalValue r.value r.rnd))
  else j

/-- The whole step: rows of the data table applied in order. -/
def applyRows (j : Json) (rows : List Row) : Json := rows.foldl applyRow j

/-- Two definite paths overlap when one is a prefix of the other (then an
update at one can change or destroy the value at the other). -/
def overlaps (p q : JPath) : Prop := p <+: q ∨ q <+: p

instance (p q : JPath) : Decidable (overlaps p q) := by
  unfold overlaps; infer_instance

/-! ### Thrown JavaScript errors

`thrown` is an explicit `throw new Error(message)` in repository code;
`nullDeref` is the `TypeError` raised by a member access on
`null`/`undefined`; `external` is a rejected `await` of a Playwright
library call (browser launch, screenshot, HTTP). -/

inductive JSError where
  | thrown (msg : String) : JSError
  | nullDeref (member : String) : JSError
  | external (msg : String) : JSError
deriving DecidableEq

/-! ### BrowserManager (`src/utils/BrowserManager.ts`)

State: at most one each of browser, context and page handle, all
initially `null`.  Events record the observable side effects on the
automation engine and the `.env` side channel. -/

/-- A launched browser process handle together with the version string
`browser.version()` reports. -/
structure BrowserHandle where
  id : Nat
  version : String
deriving DecidableEq

structure BMState where
  browser : Option BrowserHandle := none
  context : Option Nat := none
  page : Option Nat := none
deriving DecidableEq

/-- Observable side effects of the lifecycle code. -/
inductive Event where
  | launched (engine : String) : Event
  | envWritten (key value : String) : Event
  | contextCreated : Event
  | pageCreated : Event
  | pageTimeoutSet (ms : Nat) : Event
  | pageClosed : Event
  | contextClosed : Event
  | browserClosed : Event
  | attached (payload : String) (mediaType : String) : Event
  | attachedImage : Event
  | screenshotTaken : Event
  | cleared : Event
deriving DecidableEq

/-- Configuration (`src/config/config.ts`): `config.browser` is read from
the `BROWSER` environment variable through a bare type assertion, so at
run time it can hold any string. -/
structure Config where
  browser : String
  headless : Bool
  timeout : Nat
deriving DecidableEq

/-- Method `launchBrowser()`.  The `switch (browserType)` has cases only for
`chromium`, `firefox` and `webkit` and no `default`; an unrecognized
kind falls through with `this.browser` unassigned, and the subsequent
`await this.browser.version()` dereferences `null`.  `lo` is the engine
oracle: launching a given engine either yields a handle or rejects with
the engine's error message (process failed to start). -/
def launchBrowser (cfg : Config) (lo : String → Except String BrowserHandle)
    (s : BMState) : BMState × List Event × Except JSError Unit :=
  let launchStep : Option (Except String BrowserHandle) :=
    match cfg.browser with
    | "chromium" => some (lo "chromium")
    | "firefox" => some (lo "firefox")
    | "webkit" => some (lo "webkit")
    | _ => none
  match launchStep with
  | some (.error m) => (s, [], .error (.external m))
  | some (.ok h) =>
      ({ s with browser := some h },
       [.launched cfg.browser, .envWritten "RUN_BROWSER_VERSION" h.version],
       .ok ())
  | none =>
      match s.browser with
      | some h => (s, [.envWritten "RUN_BROWSER_VERSION" h.version], .ok ())
      | none => (s, [], .error (.nullDeref "version"))

/-- Method `createContext()`: guard clause, then `browser.newContext(...)`. -/
def createContext (s : BMState) : BMState × List Event × Except JSError Unit :=
  match s.browser with
  | none => (s, [], .error (.thrown "Browser not launched. Call launchBrowser() first."))
  | some _ => ({ s with context := some 0 }, [.contextCreated], .ok ())

/-- Method `createPage()`: guard clause, then `context.newPage()` and
`page.setDefaultTimeout(config.timeout)`; returns the page handle. -/
def createPage (cfg : Config) (s : BMState) : BMState × List Event × Except JSError Nat :=
  match s.context with
  | none => (s, [], .error (.thrown "Context not created. Call createContext() first."))
  | some _ =>
      ({ s with page := some 0 },
       [.pageCreated, .pageTimeoutSet cfg.timeout],
       .ok 0)

/-- Method `closeBrowser()`: `if (this.page) await this.page.close();` then the
same for context and browser.  The fields are never reset to `null`;
Playwright's `close()` calls are idempotent no-throw releases, modelled
as bare events. -/
def closeBrowser (s : BMState) : BMState × List Event × Except JSError Unit :=
  (s,
   (if s.page.isSome then [Event.pageClosed] else [])
     ++ (if s.context.isSome then [Event.contextClosed] else [])
     ++ (if s.browser.isSome then [Event.browserClosed] else []),
   .ok ())

/-- Method `getPage()`: accessor with a guard clause. -/
def getPage (s : BMState) : Except JSError Nat :=
  match s.page with
  | none => .error (.thrown "Page not created. Call createPage() first.")
  | some p => .ok p

/-- Method `getContext()`: accessor with a guard clause. -/
def getContext (s : BMState) : Except JSError Nat :=
  match s.context with
  | none => .error (.thrown "Context not created. Call createContext() first.")
  | some c => .ok c

/-! ### The Cucumber hooks (`src/hooks/hooks.ts`) and the scenario world -/

/-- Values stored in the `testData` scratch map (`Map<string, any>`);
the `Before` hook seeds strings and a millisecond timestamp. -/
inductive TDVal where
  | str (s : String) : TDVal
  | num (n : Nat) : TDVal
deriving DecidableEq

/-- JavaScript `Map.prototype.set`: replace in place or append. -/
def tdSet : List (String × TDVal) → String → TDVal → List (String × TDVal)
  | [], k, v => [(k, v)]
  | (k', v') :: rest, k, v =>
      if k' = k then (k, v) :: rest else (k', v') :: tdSet rest k v

/-- JavaScript `Map.prototype.get`. -/
def tdGet : List (String × TDVal) → String → Option TDVal
  | [], _ => none
  | (k', v') :: rest, k => if k' = k then some v' else tdGet rest k

/-- The per-scenario `CustomWorld` state the hooks touch: the browser
manager, the optional bound page, and the scratch map. -/
structure WorldState where
  bm : BMState := {}
  page : Option Nat := none
  testData : List (String × TDVal) := []
deriving DecidableEq

/-- Cucumber's scenario descriptor `pickle` (unique id, name, tags). -/
structure Pickle where
  id : String
  name : String
  tags : List String
deriving DecidableEq

/-- The derived collision-resistant value the `Before` hook seeds:
`` `test_${pickle.id}_${Date.now()}@example.com` ``. -/
def uniqueEmail (id : String) (ts : Nat) : String :=
  "test_" ++ id ++ "_" ++ jsNatString ts ++ "@example.com"

/-- The scratch-map seeding of the `Before` hook (`scenarioId`,
`timestamp`, `uniqueEmail`); `t1` and `t2` are the two `Date.now()`
reads. -/
def seedTestData (m : List (String × TDVal)) (p : Pickle) (t1 t2 : Nat) :
    List (String × TDVal) :=
  tdSet (tdSet (tdSet m "scenarioId" (.str p.id)) "timestamp" (.num t1))
    "uniqueEmail" (.str (uniqueEmail p.id t2))

/-- The `Before` hook.  Note that it inspects no tags: every scenario,
`@api`-tagged or not, goes through browser launch, context creation and
page creation before the scratch map is seeded.  `pid` is `process.pid`. -/
def beforeHook (cfg : Config) (lo : String → Except String BrowserHandle)
    (pid : Nat) (p : Pickle) (t1 t2 : Nat) (w : WorldState) :
    WorldState × List Event × Except JSError Unit :=
  let ev0 : List Event :=
    [.attached ("This scenario runs in Thread ID: " ++ jsNatString pid) "text/plain"]
  match launchBrowser cfg lo w.bm with
  | (s1, ev1, .error e) => ({ w with bm := s1 }, ev0 ++ ev1, .error e)
  | (s1, ev1, .ok ()) =>
    match createContext s1 with
    | (s2, ev2, .error e) => ({ w with bm := s2 }, ev0 ++ ev1 ++ ev2, .error e)
    | (s2, ev2, .ok ()) =>
      match createPage cfg s2 with
      | (s3, ev3, .error e) => ({ w with bm := s3 }, ev0 ++ ev1 ++ ev2 ++ ev3, .error e)
      | (s3, ev3, .ok pg) =>
          ({ bm := s3, page := some pg, testData := seedTestData w.testData p t1 t2 },
           ev0 ++ ev1 ++ ev2 ++ ev3, .ok ())

/-- Cucumber scenario status as the `After` hook sees it. -/
inductive Status where
  | passed : Status
  | failed : Status
  | skipped : Status
deriving DecidableEq

/-- The `result` argument of the `After` hook (possibly `undefined`). -/
structure TestResult where
  status : Status
  message : Option String
deriving DecidableEq

mutual
/-- Model of the `strip-ansi` package: remove ANSI CSI escape sequences
(`ESC [` parameters, final byte); all other characters are kept. -/
def stripAnsiChars : List Char → List Char
  | [] => []
  | c :: '[' :: r2 =>
      if c.toNat = 27 then stripCSI r2 else c :: stripAnsiChars ('[' :: r2)
  | c :: rest => c :: stripAnsiChars rest
termination_by s => s.length
decreasing_by all_goals (simp_wf <;> omega)

/-- Skip the parameter bytes of a CSI escape sequence up to and including
its final byte (`0x40`–`0x7E`), then resume stripping. -/
def stripCSI : List Char → List Char
  | [] => []
  | c :: rest =>
      if 0x40 ≤ c.toNat ∧ c.toNat ≤ 0x7E then stripAnsiChars rest else stripCSI rest
termination_by s => s.length
decreasing_by all_goals simp_wf
end

/-! ### RESTUtils (second half of `src/utils/World.ts`)

The REST session manager for API scenarios.  HTTP itself is an oracle
`o : ApiRequest → ApiResponse`; the manager's own logic (staging,
storing, guarding, raising) is embedded directly. -/

/-- HTTP verbs `RESTUtils` issues. -/
inductive HttpMethod where
  | post : HttpMethod
  | get : HttpMethod
  | put : HttpMethod
  | patch : HttpMethod
  | delete : HttpMethod
deriving DecidableEq

/-- The request as handed to the Playwright request context: verb, the
`headers:` option (possibly `undefined`) and the `data:` option
(present only when a body is sent). -/
structure ApiRequest where
  method : HttpMethod
  headers : Option (List (String × String))
  data : Option Json

/-- A received `APIResponse`: status, status text, and the body under
its two decodings. -/
structure ApiResponse where
  status : Nat
  statusText : String
  jsonBody : Json
  textBody : String

/-- Playwright `response.ok()`: status in the 200–299 range. -/
def respOk (r : ApiResponse) : Bool := 200 ≤ r.status && r.status ≤ 299

/-- The `RESTUtils` instance state.  `apiContext` is initialized to `null`
(via `null as unknown as APIRequestContext`); the two resource URLs use
definite-assignment assertions and are `undefined` until set. -/
structure RESTState where
  oauthResourceURL : Option String := none
  tranResourceURL : Option String := none
  apiContext : Option String := none
  apiBodyPayload : Option Json := none
  apiCustomHeaders : Option (List (String × String)) := none
  response : Option ApiResponse := none

/-- API configuration (`src/config/APIconfig.ts`): base URLs, timeout,
per-kind default headers and the OAuth form body. -/
structure APIConfig where
  OAuthURL : String
  tranURL : String
  timeout : Nat
  OAuthBodyForm : Json

/-- Method `setupOAuthResourceURL(resourceURL)`. -/
def setupOAuthResourceURL (st : RESTState) (url : String) : RESTState :=
  { st with oauthResourceURL := some url }

/-- Method `setupTranResourceURL(resourceURL)`. -/
def setupTranResourceURL (st : RESTState) (url : String) : RESTState :=
  { st with tranResourceURL := some url }

/-- Method `setAPIBodyPayload(payload)`. -/
def setAPIBodyPayload (st : RESTState) (payload : Json) : RESTState :=
  { st with apiBodyPayload := some payload }

/-- Method `setAPICustomHeaders(headers)`. -/
def setAPICustomHeaders (st : RESTState) (hs : List (String × String)) : RESTState :=
  { st with apiCustomHeaders := some hs }

/-- Method `setupOAuthRequest()`: opens a fresh request context scoped to
`OAuthBaseURL + OAuthResourceURL`, replacing any previous one.
JavaScript string concatenation renders an undefined resource URL as
the text `"undefined"`. -/
def setupOAuthRequest (cfg : APIConfig) (st : RESTState) : RESTState :=
  { st with apiContext := some (cfg.OAuthURL ++ st.oauthResourceURL.getD "undefined") }

/-- Method `setupTranRequest()`: likewise for the transactional endpoint. -/
def setupTranRequest (cfg : APIConfig) (st : RESTState) : RESTState :=
  { st with apiContext := some (cfg.tranURL ++ st.tranResourceURL.getD "undefined") }

/-- The base-64 alphabet. -/
def b64Char (n : Nat) : Char :=
  "ABCDEFGHIJKLMNOPQRSTUVWXYZabcdefghijklmnopqrstuvwxyz0123456789+/".data.getD n '='

/-- Standard base-64 of a byte sequence, three bytes at a time. -/
def b64Chunks : List Nat → List Char
  | [] => []
  | [a] => [b64Char (a / 4), b64Char ((a % 4) * 16), '=', '=']
  | [a, b] => [b64Char (a / 4), b64Char ((a % 4) * 16 + b / 16), b64Char ((b % 16) * 4), '=']
  | a :: b :: c :: rest =>
      b64Char (a / 4) :: b64Char ((a % 4) * 16 + b / 16)
        :: b64Char ((b % 16) * 4 + c / 64) :: b64Char (c % 64) :: b64Chunks rest

/-- JavaScript `Buffer.from(s).toString('base64')`. -/
def base64Encode (s : String) : String :=
  String.mk (b64Chunks (s.toUTF8.toList.map (·.toNat)))

/-- The Basic-authenticated form-encoded POST `getOAuthToken` issues. -/
def oauthTokenRequest (cfg : APIConfig) (clientId clientSecret : String) : ApiRequest :=
  { method := .post,
    headers := some [("Authorization", "Basic " ++ base64Encode (clientId ++ ":" ++ clientSecret))],
    data := some cfg.OAuthBodyForm }

/-- Method `getOAuthToken(clientId, clientSecret)`: posts to the OAuth context,
stores the response (before any success check), then throws if the
response is not ok.  A `null` context is a member-access TypeError. -/
def getOAuthToken (cfg : APIConfig) (o : ApiRequest → ApiResponse)
    (clientId clientSecret : String) (st : RESTState) :
    RESTState × Except JSError ApiResponse :=
  match st.apiContext with
  | none => (st, .error (.nullDeref "post"))
  | some _ =>
      let resp := o (oauthTokenRequest cfg clientId clientSecret)
      let st' := { st with response := some resp }
      if respOk resp then (st', .ok resp)
      else
        (st', .error (.thrown ("Failed to get OAuth token: "
          ++ jsNatString resp.status ++ " - " ++ resp.statusText)))

/-- Method `postTransaction()`: sends the staged body and headers, stores the
raw response, and returns it without any status check (the ok-check is
commented out to allow negative test cases). -/
def postTransaction (o : ApiRequest → ApiResponse) (st : RESTState) :
    RESTState × Except JSError ApiResponse :=
  match st.apiContext with
  | none => (st, .error (.nullDeref "post"))
  | some _ =>
      let resp := o { method := .post, headers := st.apiCustomHeaders, data := st.apiBodyPayload }
      ({ st with response := some resp }, .ok resp)

/-- Method `getTransaction()`: no body is sent; stores and returns the raw
response without any status check. -/
def getTransaction (o : ApiRequest → ApiResponse) (st : RESTState) :
    RESTState × Except JSError ApiResponse :=
  match st.apiContext with
  | none => (st, .error (.nullDeref "get"))
  | some _ =>
      let resp := o { method := .get, headers := st.apiCustomHeaders, data := none }
      ({ st with response := some resp }, .ok resp)

/-- Method `putTransaction()`: sends the staged body; no status check. -/
def putTransaction (o : ApiRequest → ApiResponse) (st : RESTState) :
    RESTState × Except JSError ApiResponse :=
  match st.apiContext with
  | none => (st, .error (.nullDeref "put"))
  | some _ =>
      let resp := o { method := .put, headers := st.apiCustomHeaders, data := st.apiBodyPayload }
      ({ st with response := some resp }, .ok resp)

/-- Method `patchTransaction()`: sends the staged body; no status check. -/
def patchTransaction (o : ApiRequest → ApiResponse) (st : RESTState) :
    RESTState × Except JSError ApiResponse :=
  match st.apiContext with
  | none => (st, .error (.nullDeref "patch"))
  | some _ =>
      let resp := o { method := .patch, headers := st.apiCustomHeaders, data := st.apiBodyPayload }
      ({ st with response := some resp }, .ok resp)

/-- Method `deleteTransaction()`: no body is sent; stores the raw response and
then throws exactly when the response is not ok. -/
def deleteTransaction (o : ApiRequest → ApiResponse) (st : RESTState) :
    RESTState × Except JSError ApiResponse :=
  match st.apiContext with
  | none => (st, .error (.nullDeref "delete"))
  | some _ =>
      let resp := o { method := .delete, headers := st.apiCustomHeaders, data := none }
      let st' := { st with response := some resp }
      if respOk resp then (st', .ok resp)
      else
        (st', .error (.thrown ("Transaction API DELETE request failed: "
          ++ jsNatString resp.status ++ " - " ++ resp.statusText)))

/-- Method `getResponseStatusCode()`: guarded accessor over the last response. -/
def getResponseStatusCode (st : RESTState) : Except JSError Nat :=
  match st.response with
  | none => .error (.thrown
      "Response is not available. Make sure to perform an API call before getting the status code.")
  | some r => .ok r.status

/-- Method `getResponseStatusLine()`: guarded accessor over the last response. -/
def getResponseStatusLine (st : RESTState) : Except JSError String :=
  match st.response with
  | none => .error (.thrown
      "Response is not available. Make sure to perform an API call before getting the status line.")
  | some r => .ok r.statusText

/-- Method `getResponseBody()`: guarded JSON-body accessor. -/
def getResponseBody (st : RESTState) : Except JSError Json :=
  match st.response with
  | none => .error (.thrown
      "Response is not available. Make sure to perform an API call before getting the response body.")
  | some r => .ok r.jsonBody

/-- Method `getResponseAsString()`: guarded text-body accessor. -/
def getResponseAsString (st : RESTState) : Except JSError String :=
  match st.response with
  | none => .error (.thrown
      "Response is not available. Make sure to perform an API call before getting the response as string.")
  | some r => .ok r.textBody

/-- Method `disposeAPIContext()`: releases the open context if any. -/
def disposeAPIContext (st : RESTState) : RESTState :=
  match st.apiContext with
  | none => st
  | some _ => { st with apiContext := none }

/-- JavaScript `stripAnsi(message)`. -/
def stripAnsiStr (s : String) : String := String.mk (stripAnsiChars s.data)

/-- The `After` hook's screenshot condition:
`result?.status === Status.FAILED && this.page`. -/
def failedWithPage (w : WorldState) (result : Option TestResult) : Bool :=
  match result with
  | some r => r.status == Status.failed && w.page.isSome
  | none => false

/-- The attach performed for a present failure message: the text is
cleaned with `stripAnsi` before being attached. -/
def msgEvents (result : Option TestResult) : List Event :=
  match result with
  | some r =>
      match r.message with
      | some m => [.attached (stripAnsiStr m) "text/plain"]
      | none => []
  | none => []

/-- The `After` hook.  `shot` is the outcome of the
`page.screenshot({fullPage: true, type: 'png'})` await: the screenshot
either succeeds or rejects with an error message.  The hook body has no
`try`/`catch`: an error at any step aborts the rest of the hook. -/
def afterHook (w : WorldState) (result : Option TestResult)
    (shot : Except String Unit) : WorldState × List Event × Except JSError Unit :=
  if failedWithPage w result then
    match shot with
    | .error e => (w, msgEvents result, .error (.external e))
    | .ok () =>
        let (bm', evC, _) := closeBrowser w.bm
        ({ w with bm := bm', testData := [] },
         msgEvents result ++ [.screenshotTaken, .attachedImage] ++ evC ++ [.cleared],
         .ok ())
  else
    let (bm', evC, _) := closeBrowser w.bm
    ({ w with bm := bm', testData := [] }, evC ++ [.cleared], .ok ())

/-! ## Theorems -/

/-- C3: on any `BrowserManager` state, `createContext` before a
completed `launchBrowser` fails with the precondition guard error, and
`createPage` before `createContext` fails with its precondition guard
error; both failures are explicit `throw`s of the guard clauses, not
null-dereferences. -/
theorem createContext_createPage_precondition (s : BMState) (cfg : Config) :
    (s.browser = none →
      createContext s
        = (s, [], .error (.thrown "Browser not launched. Call launchBrowser() first.")))
    ∧ (s.context = none →
      createPage cfg s
        = (s, [], .error (.thrown "Context not created. Call createContext() first."))) := by
  constructor
  · intro hb; simp [createContext, hb]
  · intro hc; simp [createPage, hc]

/-- Witness for C3: both preconditions fire on the freshly constructed
manager state. -/
theorem createContext_createPage_precondition_witness :
    (({} : BMState).browser = none ∧ ({} : BMState).context = none)
    ∧ createContext {}
        = ({}, [], .error (.thrown "Browser not launched. Call launchBrowser() first."))
    ∧ createPage ⟨"chromium", true, 30000⟩ {}
        = ({}, [], .error (.thrown "Context not created. Call createContext() first.")) :=
  ⟨⟨rfl, rfl⟩,
   (createContext_createPage_precondition {} ⟨"chromium", true, 30000⟩).1 rfl,
   (createContext_createPage_precondition {} ⟨"chromium", true, 30000⟩).2 rfl⟩

/-- C4: `closeBrowser` never throws on any of the eight handle-presence
states, releases page, then context, then browser, each only if present,
and a second call after a prior close is equally safe. -/
theorem closeBrowser_safe (s : BMState) :
    (closeBrowser s).2.2 = .ok ()
    ∧ (closeBrowser s).2.1
        = (if s.page.isSome then [Event.pageClosed] else [])
          ++ (if s.context.isSome then [Event.contextClosed] else [])
          ++ (if s.browser.isSome then [Event.browserClosed] else [])
    ∧ (closeBrowser (closeBrowser s).1).2.2 = .ok () :=
  ⟨rfl, rfl, rfl⟩

/-- C5 counterexample: with the engine kind configured to the
unrecognized value `"opera"` (possible at run time because
`config.browser` is a bare cast of the `BROWSER` environment variable),
`launchBrowser` on a fresh manager fails with the `TypeError` of reading
`version` on a null browser — not with a descriptive launch error. -/
theorem launchBrowser_unknown_engine_nullderef :
    launchBrowser ⟨"opera", true, 30000⟩ (fun _ => .ok ⟨0, "140.0"⟩) {}
      = ({}, [], .error (.nullDeref "version")) := rfl

/-- C5 amended: for each of the three supported engine kinds a process
start failure propagates as the descriptive launch failure; for an
unrecognized kind the `switch` falls through, leaving the browser field
null, and the subsequent `version()` read fails with a null-dereference
`TypeError` rather than a launch error. -/
theorem launchBrowser_failure_modes (cfg : Config)
    (lo : String → Except String BrowserHandle) (s : BMState) :
    (cfg.browser = "chromium" ∨ cfg.browser = "firefox" ∨ cfg.browser = "webkit" →
      (∀ m, lo cfg.browser = .error m →
        launchBrowser cfg lo s = (s, [], .error (.external m)))
      ∧ (∀ h, lo cfg.browser = .ok h →
        launchBrowser cfg lo s
          = ({ s with browser := some h },
             [.launched cfg.browser, .envWritten "RUN_BROWSER_VERSION" h.version],
             .ok ())))
    ∧ (cfg.browser ≠ "chromium" → cfg.browser ≠ "firefox" → cfg.browser ≠ "webkit" →
        s.browser = none →
        launchBrowser cfg lo s = (s, [], .error (.nullDeref "version"))) := by
  constructor
  · rintro (hc | hc | hc) <;>
      exact ⟨fun m hm => by rw [hc] at hm; simp [launchBrowser, hc, hm],
             fun h hh => by rw [hc] at hh; simp [launchBrowser, hc, hh]⟩
  · intro h1 h2 h3 hb
    unfold launchBrowser
    split <;> simp_all

/-- Witness for the amended C5 theorem: a chromium launch whose process
fails to start surfaces the launch error, and an `"opera"` configuration
on a fresh manager surfaces the null-dereference. -/
theorem launchBrowser_failure_modes_witness :
    launchBrowser ⟨"chromium", true, 30000⟩ (fun _ => .error "spawn failed") {}
      = ({}, [], .error (.external "spawn failed"))
    ∧ launchBrowser ⟨"webkit", true, 30000⟩ (fun _ => .ok ⟨7, "17.4"⟩) {}
      = ({ ({} : BMState) with browser := some ⟨7, "17.4"⟩ },
         [.launched "webkit", .envWritten "RUN_BROWSER_VERSION" "17.4"], .ok ())
    ∧ launchBrowser ⟨"edge", false, 5000⟩ (fun _ => .ok ⟨1, "1"⟩) {}
      = ({}, [], .error (.nullDeref "version")) :=
  ⟨((launchBrowser_failure_modes ⟨"chromium", true, 30000⟩
        (fun _ => .error "spawn failed") {}).1 (Or.inl rfl)).1 "spawn failed" rfl,
   ((launchBrowser_failure_modes ⟨"webkit", true, 30000⟩
        (fun _ => .ok ⟨7, "17.4"⟩) {}).1 (Or.inr (Or.inr rfl))).2 ⟨7, "17.4"⟩ rfl,
   (launchBrowser_failure_modes ⟨"edge", false, 5000⟩
        (fun _ => .ok ⟨1, "1"⟩) {}).2 (by decide) (by decide) (by decide) rfl⟩

/-- C7: against an open request context, the POST/GET/PUT/PATCH send
operations store the raw response and return it without raising for any
response status; POST/PUT/PATCH carry the staged body while GET and
DELETE carry none; the DELETE send stores the raw response and raises
exactly when the status is not in the successful 200–299 range. -/
theorem transactions_store_and_raise (o : ApiRequest → ApiResponse)
    (st : RESTState) (u : String) (hctx : st.apiContext = some u) :
    postTransaction o st
      = ({ st with response := some (o ⟨.post, st.apiCustomHeaders, st.apiBodyPayload⟩) },
         .ok (o ⟨.post, st.apiCustomHeaders, st.apiBodyPayload⟩))
    ∧ getTransaction o st
      = ({ st with response := some (o ⟨.get, st.apiCustomHeaders, none⟩) },
         .ok (o ⟨.get, st.apiCustomHeaders, none⟩))
    ∧ putTransaction o st
      = ({ st with response := some (o ⟨.put, st.apiCustomHeaders, st.apiBodyPayload⟩) },
         .ok (o ⟨.put, st.apiCustomHeaders, st.apiBodyPayload⟩))
    ∧ patchTransaction o st
      = ({ st with response := some (o ⟨.patch, st.apiCustomHeaders, st.apiBodyPayload⟩) },
         .ok (o ⟨.patch, st.apiCustomHeaders, st.apiBodyPayload⟩))
    ∧ (deleteTransaction o st).1
      = { st with response := some (o ⟨.delete, st.apiCustomHeaders, none⟩) }
    ∧ (deleteTransaction o st).2
      = (if respOk (o ⟨.delete, st.apiCustomHeaders, none⟩) then
          .ok (o ⟨.delete, st.apiCustomHeaders, none⟩)
         else
          .error (.thrown ("Transaction API DELETE request failed: "
            ++ jsNatString (o ⟨.delete, st.apiCustomHeaders, none⟩).status
            ++ " - " ++ (o ⟨.delete, st.apiCustomHeaders, none⟩).statusText))) := by
  refine ⟨?_, ?_, ?_, ?_, ?_, ?_⟩ <;>
    simp [postTransaction, getTransaction, putTransaction, patchTransaction,
      deleteTransaction, hctx] <;>
    split <;> simp

/-- Witness for C7: a concrete open session receiving a 404 on every
verb — POST returns it without raising, and DELETE raises on it. -/
theorem transactions_store_and_raise_witness :
    postTransaction (fun _ => ⟨404, "Not Found", Json.null, ""⟩)
        { apiContext := some "https://api.sandbox.paypal.com/v1/notifications/webhooks" }
      = ({ apiContext := some "https://api.sandbox.paypal.com/v1/notifications/webhooks",
           response := some ⟨404, "Not Found", Json.null, ""⟩ },
         .ok ⟨404, "Not Found", Json.null, ""⟩)
    ∧ (deleteTransaction (fun _ => ⟨404, "Not Found", Json.null, ""⟩)
        { apiContext := some "https://api.sandbox.paypal.com/v1/notifications/webhooks" }).2
      = .error (.thrown "Transaction API DELETE request failed: 404 - Not Found") := by
  have h := transactions_store_and_raise (fun _ => ⟨404, "Not Found", Json.null, ""⟩)
    { apiContext := some "https://api.sandbox.paypal.com/v1/notifications/webhooks" }
    "https://api.sandbox.paypal.com/v1/notifications/webhooks" rfl
  exact ⟨h.1, by rw [h.2.2.2.2.2]; rfl⟩

/-- C9: each of the four response accessors, called on a session that
has not yet stored any response, fails with the descriptive
response-not-available error instead of returning a value. -/
theorem accessors_require_response (st : RESTState) (h : st.response = none) :
    getResponseStatusCode st = .error (.thrown
      "Response is not available. Make sure to perform an API call before getting the status code.")
    ∧ getResponseStatusLine st = .error (.thrown
      "Response is not available. Make sure to perform an API call before getting the status line.")
    ∧ getResponseBody st = .error (.thrown
      "Response is not available. Make sure to perform an API call before getting the response body.")
    ∧ getResponseAsString st = .error (.thrown
      "Response is not available. Make sure to perform an API call before getting the response as string.") := by
  refine ⟨?_, ?_, ?_, ?_⟩ <;>
    simp [getResponseStatusCode, getResponseStatusLine, getResponseBody,
      getResponseAsString, h]

/-- Witness for C9: the four accessors all fail on a freshly constructed
session. -/
theorem accessors_require_response_witness :
    ({} : RESTState).response = none
    ∧ getResponseStatusCode {} = .error (.thrown
      "Response is not available. Make sure to perform an API call before getting the status code.")
    ∧ getResponseBody {} = .error (.thrown
      "Response is not available. Make sure to perform an API call before getting the response body.") :=
  ⟨rfl, (accessors_require_response {} rfl).1, (accessors_require_response {} rfl).2.2.1⟩

/-- C10: `getOAuthToken` stores the received response before checking
success, so when the OAuth response is not ok it raises the token
failure, yet the failed response stays stored and every subsequent
accessor returns that response's data instead of failing with the
response-not-available error. -/
theorem getOAuthToken_not_atomic (cfg : APIConfig) (o : ApiRequest → ApiResponse)
    (cid csec : String) (st : RESTState) (u : String)
    (hctx : st.apiContext = some u)
    (hfail : respOk (o (oauthTokenRequest cfg cid csec)) = false) :
    (getOAuthToken cfg o cid csec st).2
      = .error (.thrown ("Failed to get OAuth token: "
          ++ jsNatString (o (oauthTokenRequest cfg cid csec)).status
          ++ " - " ++ (o (oauthTokenRequest cfg cid csec)).statusText))
    ∧ (getOAuthToken cfg o cid csec st).1.response
      = some (o (oauthTokenRequest cfg cid csec))
    ∧ getResponseStatusCode (getOAuthToken cfg o cid csec st).1
      = .ok (o (oauthTokenRequest cfg cid csec)).status
    ∧ getResponseStatusLine (getOAuthToken cfg o cid csec st).1
      = .ok (o (oauthTokenRequest cfg cid csec)).statusText
    ∧ getResponseBody (getOAuthToken cfg o cid csec st).1
      = .ok (o (oauthTokenRequest cfg cid csec)).jsonBody
    ∧ getResponseAsString (getOAuthToken cfg o cid csec st).1
      = .ok (o (oauthTokenRequest cfg cid csec)).textBody := by
  refine ⟨?_, ?_, ?_, ?_, ?_, ?_⟩ <;>
    simp [getOAuthToken, hctx, hfail, getResponseStatusCode, getResponseStatusLine,
      getResponseBody, getResponseAsString]

/-- Witness for C10: a 401 from the OAuth endpoint is raised as the
token failure, yet afterwards the status accessor happily reports 401. -/
theorem getOAuthToken_not_atomic_witness :
    respOk ⟨401, "Unauthorized", Json.null, ""⟩ = false
    ∧ (getOAuthToken ⟨"https://api.x", "https://api.y", 30000, Json.null⟩
          (fun _ => ⟨401, "Unauthorized", Json.null, ""⟩) "id" "secret"
          { apiContext := some "https://api.x/v1/oauth2/token" }).2
      = .error (.thrown "Failed to get OAuth token: 401 - Unauthorized")
    ∧ getResponseStatusCode
        (getOAuthToken ⟨"https://api.x", "https://api.y", 30000, Json.null⟩
          (fun _ => ⟨401, "Unauthorized", Json.null, ""⟩) "id" "secret"
          { apiContext := some "https://api.x/v1/oauth2/token" }).1
      = .ok 401 := by
  have h := getOAuthToken_not_atomic ⟨"https://api.x", "https://api.y", 30000, Json.null⟩
    (fun _ => ⟨401, "Unauthorized", Json.null, ""⟩) "id" "secret"
    { apiContext := some "https://api.x/v1/oauth2/token" }
    "https://api.x/v1/oauth2/token" rfl rfl
  exact ⟨rfl, h.1, h.2.2.1⟩

/-- C1 counterexample: a failed scenario with a bound page whose
screenshot await rejects.  The teardown error propagates out of the
hook (overriding the already-determined outcome), the browser resources
are never released (no close events) and the scratch map is not
cleared — so the three teardown steps do not all execute when one
throws. -/
theorem afterHook_throw_skips_cleanup :
    (afterHook
        { bm := { browser := some ⟨0, "140.0"⟩, context := some 0, page := some 0 },
          page := some 0, testData := [("scenarioId", .str "s1")] }
        (some ⟨Status.failed, none⟩) (.error "page crashed"))
      = ({ bm := { browser := some ⟨0, "140.0"⟩, context := some 0, page := some 0 },
           page := some 0, testData := [("scenarioId", TDVal.str "s1")] },
         [], .error (.external "page crashed"))
    ∧ Event.browserClosed ∉ (afterHook
        { bm := { browser := some ⟨0, "140.0"⟩, context := some 0, page := some 0 },
          page := some 0, testData := [("scenarioId", .str "s1")] }
        (some ⟨Status.failed, none⟩) (.error "page crashed")).2.1
    ∧ Event.cleared ∉ (afterHook
        { bm := { browser := some ⟨0, "140.0"⟩, context := some 0, page := some 0 },
          page := some 0, testData := [("scenarioId", .str "s1")] }
        (some ⟨Status.failed, none⟩) (.error "page crashed")).2.1 := by
  refine ⟨rfl, by decide, by decide⟩

/-- C1 amended: the `After` hook performs, in order, (a) on failed
status with a bound page the stripped-message attach and the
full-page-screenshot attach, (b) browser-resource release, (c) scratch-
map clearing — but with no error handling: when every step succeeds all
three run and the hook returns normally, while a rejected screenshot
propagates its error out of the hook, skipping the release and the
clearing (so a teardown error is not masked and does override the
scenario's outcome). -/
theorem afterHook_behavior (w : WorldState) (result : Option TestResult)
    (shot : Except String Unit) (e : String) :
    (failedWithPage w result = true →
      (shot = .ok () →
        (afterHook w result shot).2.1
          = msgEvents result ++ [Event.screenshotTaken, Event.attachedImage]
            ++ (closeBrowser w.bm).2.1 ++ [Event.cleared]
        ∧ (afterHook w result shot).2.2 = .ok ()
        ∧ (afterHook w result shot).1.testData = [])
      ∧ (shot = .error e →
        (afterHook w result shot).2.2 = .error (.external e)
        ∧ (afterHook w result shot).2.1 = msgEvents result
        ∧ (afterHook w result shot).1 = w))
    ∧ (failedWithPage w result = false →
        (afterHook w result shot).2.1 = (closeBrowser w.bm).2.1 ++ [Event.cleared]
        ∧ (afterHook w result shot).2.2 = .ok ()
        ∧ (afterHook w result shot).1.testData = []) := by
  refine ⟨fun hf => ⟨fun hs => ?_, fun hs => ?_⟩, fun hf => ?_⟩
  · subst hs; simp [afterHook, closeBrowser, hf]
  · subst hs; simp [afterHook, hf]
  · simp [afterHook, closeBrowser, hf]

/-- Witness for the amended C1 theorem: on a failed scenario with a
bound page and a successful screenshot, all three teardown steps run —
the trace ends with release events and the clear, the map is emptied,
and the hook returns normally. -/
theorem afterHook_behavior_witness :
    failedWithPage
        { bm := { browser := some ⟨0, "140.0"⟩, context := some 0, page := some 0 },
          page := some 0, testData := [("scenarioId", .str "s1")] }
        (some ⟨Status.failed, none⟩) = true
    ∧ (afterHook
        { bm := { browser := some ⟨0, "140.0"⟩, context := some 0, page := some 0 },
          page := some 0, testData := [("scenarioId", .str "s1")] }
        (some ⟨Status.failed, none⟩) (.ok ())).2.1
      = [Event.screenshotTaken, Event.attachedImage, Event.pageClosed,
         Event.contextClosed, Event.browserClosed, Event.cleared]
    ∧ (afterHook
        { bm := { browser := some ⟨0, "140.0"⟩, context := some 0, page := some 0 },
          page := some 0, testData := [("scenarioId", .str "s1")] }
        (some ⟨Status.failed, none⟩) (.ok ())).2.2 = .ok ()
    ∧ (afterHook
        { bm := { browser := some ⟨0, "140.0"⟩, context := some 0, page := some 0 },
          page := some 0, testData := [("scenarioId", .str "s1")] }
        (some ⟨Status.failed, none⟩) (.ok ())).1.testData = [] := by
  have h := ((afterHook_behavior
    { bm := { browser := some ⟨0, "140.0"⟩, context := some 0, page := some 0 },
      page := some 0, testData := [("scenarioId", .str "s1")] }
    (some ⟨Status.failed, none⟩) (.ok ()) "").1 (by decide)).1 rfl
  exact ⟨by decide, by rw [h.1]; rfl, h.2.1, h.2.2⟩

/-- C2: the `Before` hook classifies nothing — it launches a browser,
creates a context and creates a page for every scenario, including one
carrying the `@api` tag (here a Paypal webhook scenario), contradicting
the documented skip of browser acquisition for API-only scenarios. -/
theorem beforeHook_api_scenario_launches_browser :
    "@api" ∈ (Pickle.mk "pickle-1" "Create a Webhook" ["@api"]).tags
    ∧ Event.launched "chromium" ∈ (beforeHook ⟨"chromium", true, 30000⟩
        (fun _ => .ok ⟨0, "140.0"⟩) 71 ⟨"pickle-1", "Create a Webhook", ["@api"]⟩
        1699 1700 {}).2.1
    ∧ Event.contextCreated ∈ (beforeHook ⟨"chromium", true, 30000⟩
        (fun _ => .ok ⟨0, "140.0"⟩) 71 ⟨"pickle-1", "Create a Webhook", ["@api"]⟩
        1699 1700 {}).2.1
    ∧ Event.pageCreated ∈ (beforeHook ⟨"chromium", true, 30000⟩
        (fun _ => .ok ⟨0, "140.0"⟩) 71 ⟨"pickle-1", "Create a Webhook", ["@api"]⟩
        1699 1700 {}).2.1 := by
  refine ⟨by decide, ?_, ?_, ?_⟩ <;> decide

/-- Every character `Nat.toDigitsCore` emits in base 10 is a digit
character of a digit below 10 (or comes from the seed accumulator). -/
theorem mem_toDigitsCore_ten (fuel : Nat) :
    ∀ (n : Nat) (acc : List Char), ∀ c ∈ Nat.toDigitsCore 10 fuel n acc,
      c ∈ acc ∨ ∃ d, d < 10 ∧ c = Nat.digitChar d := by
  induction fuel with
  | zero => intro n acc c hc; exact Or.inl hc
  | succ fuel ih =>
    intro n acc c hc
    unfold Nat.toDigitsCore at hc
    by_cases h : n / 10 = 0
    · rw [if_pos h] at hc
      rcases List.mem_cons.mp hc with rfl | hmem
      · exact Or.inr ⟨n % 10, Nat.mod_lt _ (by decide), rfl⟩
      · exact Or.inl hmem
    · rw [if_neg h] at hc
      rcases ih (n / 10) (Nat.digitChar (n % 10) :: acc) c hc with hacc | hd
      · rcases List.mem_cons.mp hacc with rfl | hmem
        · exact Or.inr ⟨n % 10, Nat.mod_lt _ (by decide), rfl⟩
        · exact Or.inl hmem
      · exact Or.inr hd

/-- Digit characters are never an underscore. -/
theorem digitChar_ne_underscore (d : Nat) (h : d < 10) : Nat.digitChar d ≠ '_' := by
  interval_cases d <;> decide

/-- The decimal rendering of a natural number contains no underscore. -/
theorem underscore_not_mem_jsNatString (n : Nat) : '_' ∉ (jsNatString n).data := by
  intro hmem
  have hm : '_' ∈ Nat.toDigitsCore 10 (n + 1) n [] := hmem
  rcases mem_toDigitsCore_ten (n + 1) n [] '_' hm with h | ⟨d, hd, he⟩
  · exact absurd h (List.not_mem_nil _)
  · exact digitChar_ne_underscore d hd he.symm

/-- Splitting at the last underscore is unambiguous: if the suffixes on
both sides of a `'_'` separator are underscore-free, the decomposition
is unique. -/
theorem sep_last_unique : ∀ (x z y w : List Char),
    x ++ '_' :: y = z ++ '_' :: w → '_' ∉ y → '_' ∉ w → x = z ∧ y = w := by
  intro x
  induction x with
  | nil =>
    intro z y w heq hy hw
    cases z with
    | nil =>
      refine ⟨rfl, ?_⟩
      simpa using heq
    | cons zc zt =>
      exfalso
      simp only [List.nil_append, List.cons_append] at heq
      injection heq with h1 h2
      apply hy
      rw [h2]
      exact List.mem_append_right _ (List.mem_cons_self _ _)
  | cons xc xt ih =>
    intro z y w heq hy hw
    cases z with
    | nil =>
      exfalso
      simp only [List.cons_append, List.nil_append] at heq
      injection heq with h1 h2
      apply hw
      rw [← h2]
      exact List.mem_append_right _ (List.mem_cons_self _ _)
    | cons zc zt =>
      simp only [List.cons_append] at heq
      injection heq with h1 h2
      obtain ⟨e1, e2⟩ := ih zt y w h2 hy hw
      exact ⟨by rw [h1, e1], e2⟩

/-- The derived unique email embeds the scenario identifier
recoverably: distinct identifiers give distinct emails for any pair of
timestamps, because the numeral and domain after the last underscore
are underscore-free. -/
theorem uniqueEmail_inj (id₁ id₂ : String) (a b : Nat)
    (h : uniqueEmail id₁ a = uniqueEmail id₂ b) : id₁ = id₂ := by
  have hd := congrArg String.data h
  simp only [uniqueEmail, String.data_append] at hd
  have hd' : ("test_".data ++ id₁.data) ++ '_' :: ((jsNatString a).data ++ "@example.com".data)
      = ("test_".data ++ id₂.data) ++ '_' :: ((jsNatString b).data ++ "@example.com".data) := by
    simpa [List.append_assoc] using hd
  have hfree : ∀ n : Nat, ('_' : Char) ∉ (jsNatString n).data ++ "@example.com".data := by
    intro n hm
    rcases List.mem_append.mp hm with hm | hm
    · exact underscore_not_mem_jsNatString n hm
    · revert hm
      decide
  obtain ⟨e1, _⟩ := sep_last_unique _ _ _ _ hd' (hfree a) (hfree b)
  exact String.ext (List.append_cancel_left e1)

/-- A `Map.set` then a `Map.get` at the same key returns the new value. -/
theorem tdGet_tdSet_self (m : List (String × TDVal)) (k : String) (v : TDVal) :
    tdGet (tdSet m k v) k = some v := by
  induction m with
  | nil => simp [tdSet, tdGet]
  | cons kv rest ih =>
    obtain ⟨k', v'⟩ := kv
    by_cases h : k' = k
    · subst h; simp [tdSet, tdGet]
    · simp [tdSet, tdGet, h, ih]

/-- A `Map.set` leaves other keys unchanged. -/
theorem tdGet_tdSet_ne (m : List (String × TDVal)) (k k₀ : String) (v : TDVal)
    (h : k ≠ k₀) : tdGet (tdSet m k₀ v) k = tdGet m k := by
  induction m with
  | nil => simp [tdSet, tdGet, Ne.symm h]
  | cons kv rest ih =>
    obtain ⟨k', v'⟩ := kv
    by_cases h' : k' = k₀
    · subst h'
      simp [tdSet, tdGet, Ne.symm h]
    · simp only [tdSet, if_neg h']
      by_cases h'' : k' = k
      · simp [tdGet, h'']
      · simp [tdGet, h'', ih]

/-- After seeding, the three scratch-map keys hold exactly the seeded
values. -/
theorem tdGet_seedTestData (m : List (String × TDVal)) (p : Pickle) (t1 t2 : Nat) :
    tdGet (seedTestData m p t1 t2) "scenarioId" = some (.str p.id)
    ∧ tdGet (seedTestData m p t1 t2) "timestamp" = some (.num t1)
    ∧ tdGet (seedTestData m p t1 t2) "uniqueEmail" = some (.str (uniqueEmail p.id t2)) := by
  unfold seedTestData
  refine ⟨?_, ?_, ?_⟩
  · rw [tdGet_tdSet_ne _ _ _ _ (by decide), tdGet_tdSet_ne _ _ _ _ (by decide),
      tdGet_tdSet_self]
  · rw [tdGet_tdSet_ne _ _ _ _ (by decide), tdGet_tdSet_self]
  · rw [tdGet_tdSet_self]

/-- When the `Before` hook completes normally, the scratch map is the
seeded map. -/
theorem beforeHook_ok_testData (cfg : Config) (lo : String → Except String BrowserHandle)
    (pid : Nat) (p : Pickle) (t1 t2 : Nat) (w : WorldState)
    (hok : (beforeHook cfg lo pid p t1 t2 w).2.2 = .ok ()) :
    (beforeHook cfg lo pid p t1 t2 w).1.testData = seedTestData w.testData p t1 t2 := by
  unfold beforeHook at hok ⊢
  split at hok
  · simp at hok
  · split at hok
    · simp at hok
    · split at hok
      · simp at hok
      · simp_all

/-- C6: a completed scenario setup seeds the scratch map with the
scenario identifier, the millisecond timestamp and the derived unique
email, and two setups for scenarios with distinct identifiers (any
timestamps, workers, configurations) never agree on the seeded
`scenarioId` nor on the seeded `uniqueEmail`. -/
theorem scratch_seed_unique (cfg₁ cfg₂ : Config)
    (lo₁ lo₂ : String → Except String BrowserHandle) (pid₁ pid₂ : Nat)
    (p₁ p₂ : Pickle) (t₁ u₁ t₂ u₂ : Nat) (w₁ w₂ : WorldState)
    (hok₁ : (beforeHook cfg₁ lo₁ pid₁ p₁ t₁ u₁ w₁).2.2 = .ok ())
    (hok₂ : (beforeHook cfg₂ lo₂ pid₂ p₂ t₂ u₂ w₂).2.2 = .ok ())
    (hid : p₁.id ≠ p₂.id) :
    tdGet (beforeHook cfg₁ lo₁ pid₁ p₁ t₁ u₁ w₁).1.testData "scenarioId"
        = some (.str p₁.id)
    ∧ tdGet (beforeHook cfg₁ lo₁ pid₁ p₁ t₁ u₁ w₁).1.testData "timestamp"
        = some (.num t₁)
    ∧ tdGet (beforeHook cfg₁ lo₁ pid₁ p₁ t₁ u₁ w₁).1.testData "uniqueEmail"
        = some (.str (uniqueEmail p₁.id u₁))
    ∧ tdGet (beforeHook cfg₁ lo₁ pid₁ p₁ t₁ u₁ w₁).1.testData "scenarioId"
        ≠ tdGet (beforeHook cfg₂ lo₂ pid₂ p₂ t₂ u₂ w₂).1.testData "scenarioId"
    ∧ tdGet (beforeHook cfg₁ lo₁ pid₁ p₁ t₁ u₁ w₁).1.testData "uniqueEmail"
        ≠ tdGet (beforeHook cfg₂ lo₂ pid₂ p₂ t₂ u₂ w₂).1.testData "uniqueEmail" := by
  have h1 := beforeHook_ok_testData cfg₁ lo₁ pid₁ p₁ t₁ u₁ w₁ hok₁
  have h2 := beforeHook_ok_testData cfg₂ lo₂ pid₂ p₂ t₂ u₂ w₂ hok₂
  obtain ⟨ha1, hb1, hc1⟩ := tdGet_seedTestData w₁.testData p₁ t₁ u₁
  obtain ⟨ha2, hb2, hc2⟩ := tdGet_seedTestData w₂.testData p₂ t₂ u₂
  refine ⟨?_, ?_, ?_, ?_, ?_⟩
  · rw [h1]; exact ha1
  · rw [h1]; exact hb1
  · rw [h1]; exact hc1
  · rw [h1, h2, ha1, ha2]
    intro he
    simp only [Option.some.injEq, TDVal.str.injEq] at he
    exact hid he
  · rw [h1, h2, hc1, hc2]
    intro he
    simp only [Option.some.injEq, TDVal.str.injEq] at he
    exact hid (uniqueEmail_inj p₁.id p₂.id u₁ u₂ he)

/-- Witness for C6: two concrete scenario setups with distinct pickle
identifiers disagree on both seeded values. -/
theorem scratch_seed_unique_witness :
    (beforeHook ⟨"chromium", true, 30000⟩ (fun _ => .ok ⟨0, "140.0"⟩) 1
        ⟨"p1", "A", []⟩ 5 6 {}).2.2 = .ok ()
    ∧ (beforeHook ⟨"chromium", true, 30000⟩ (fun _ => .ok ⟨0, "140.0"⟩) 2
        ⟨"p2", "B", []⟩ 7 8 {}).2.2 = .ok ()
    ∧ tdGet (beforeHook ⟨"chromium", true, 30000⟩ (fun _ => .ok ⟨0, "140.0"⟩) 1
        ⟨"p1", "A", []⟩ 5 6 {}).1.testData "scenarioId"
      ≠ tdGet (beforeHook ⟨"chromium", true, 30000⟩ (fun _ => .ok ⟨0, "140.0"⟩) 2
        ⟨"p2", "B", []⟩ 7 8 {}).1.testData "scenarioId"
    ∧ tdGet (beforeHook ⟨"chromium", true, 30000⟩ (fun _ => .ok ⟨0, "140.0"⟩) 1
        ⟨"p1", "A", []⟩ 5 6 {}).1.testData "uniqueEmail"
      ≠ tdGet (beforeHook ⟨"chromium", true, 30000⟩ (fun _ => .ok ⟨0, "140.0"⟩) 2
        ⟨"p2", "B", []⟩ 7 8 {}).1.testData "uniqueEmail" := by
  have h := scratch_seed_unique ⟨"chromium", true, 30000⟩ ⟨"chromium", true, 30000⟩
    (fun _ => .ok ⟨0, "140.0"⟩) (fun _ => .ok ⟨0, "140.0"⟩) 1 2
    ⟨"p1", "A", []⟩ ⟨"p2", "B", []⟩ 5 6 7 8 {} {} rfl rfl (by decide)
  exact ⟨rfl, rfl, h.2.2.2.1, h.2.2.2.2⟩

/-- Looking up the rewritten key finds the rewritten value. -/
theorem lookupField_mapField (fs : List (String × Json)) (k : String)
    (f : Json → Json) :
    lookupField (mapField k f fs) k = (lookupField fs k).map f := by
  induction fs with
  | nil => rfl
  | cons kc fs ih =>
    obtain ⟨a, c⟩ := kc
    by_cases h : a = k
    · subst h
      simp [mapField, lookupField]
    · simp [mapField, lookupField, h, ih]

/-- Looking up any other key is unaffected by the rewrite. -/
theorem lookupField_mapField_ne (fs : List (String × Json)) (k k' : String)
    (f : Json → Json) (h : k' ≠ k) :
    lookupField (mapField k f fs) k' = lookupField fs k' := by
  induction fs with
  | nil => rfl
  | cons kc fs ih =>
    obtain ⟨a, c⟩ := kc
    by_cases ha : a = k
    · subst ha
      simp [mapField, lookupField, Ne.symm h, ih]
    · by_cases ha' : a = k'
      · subst ha'
        simp [mapField, lookupField, ha]
      · simp [mapField, lookupField, ha, ha', ih]

/-- Writing through a path that resolves, then reading the same path,
returns the written value. -/
theorem getPath_updateAt_self : ∀ (p : JPath) (j v : Json), (getPath j p).isSome →
    getPath (updateAt p j v) p = some v := by
  intro p
  induction p with
  | nil => intro j v _; rfl
  | cons s p ih =>
    intro j v h
    cases s with
    | field k =>
      cases j with
      | obj fs =>
        rcases hl : lookupField fs k with _ | c
        · simp [getPath, hl] at h
        · have h' : (getPath c p).isSome := by simpa [getPath, hl] using h
          simp [updateAt, getPath, lookupField_mapField, hl, ih _ _ h']
      | null => simp [getPath] at h
      | undef => simp [getPath] at h
      | bool b => simp [getPath] at h
      | num n => simp [getPath] at h
      | str t => simp [getPath] at h
      | arr xs => simp [getPath] at h
    | index i =>
      cases j with
      | arr xs =>
        rcases hl : xs[i]? with _ | c
        · simp [getPath, hl] at h
        · have hi : i < xs.length := by
            by_contra hn
            push_neg at hn
            rw [List.getElem?_eq_none hn] at hl
            cases hl
          have h' : (getPath c p).isSome := by simpa [getPath, hl] using h
          simp [updateAt, mapIdx, hl, getPath, List.getElem?_set_self hi, ih _ _ h']
      | null => simp [getPath] at h
      | undef => simp [getPath] at h
      | bool b => simp [getPath] at h
      | num n => simp [getPath] at h
      | str t => simp [getPath] at h
      | obj fs => simp [getPath] at h

/-- Path overlap is symmetric. -/
theorem overlaps_symm {p q : JPath} (h : overlaps p q) : overlaps q p :=
  h.elim Or.inr Or.inl

/-- Writing through one path leaves reads through any non-overlapping
path unchanged. -/
theorem getPath_updateAt_frame : ∀ (q p : JPath), ¬ overlaps p q →
    ∀ (j v : Json), getPath (updateAt q j v) p = getPath j p := by
  intro q
  induction q with
  | nil =>
    intro p hov
    exact absurd (Or.inr ⟨p, rfl⟩) hov
  | cons s q ih =>
    intro p hov j v
    cases p with
    | nil => exact absurd (Or.inl ⟨s :: q, rfl⟩) hov
    | cons s' p' =>
      by_cases hs : s' = s
      · subst hs
        have hov' : ¬ overlaps p' q := by
          intro h'
          apply hov
          rcases h' with ⟨t, ht⟩ | ⟨t, ht⟩
          · exact Or.inl ⟨t, by simp [← ht]⟩
          · exact Or.inr ⟨t, by simp [← ht]⟩
        cases s' with
        | field k =>
          cases j with
          | obj fs =>
            rcases hl : lookupField fs k with _ | c
            · simp [updateAt, getPath, lookupField_mapField, hl]
            · simp [updateAt, getPath, lookupField_mapField, hl, ih p' hov' c v]
          | null => simp [updateAt]
          | undef => simp [updateAt]
          | bool b => simp [updateAt]
          | num n => simp [updateAt]
          | str t => simp [updateAt]
          | arr xs => simp [updateAt]
        | index i =>
          cases j with
          | arr xs =>
            rcases hl : xs[i]? with _ | c
            · simp [updateAt, mapIdx, hl]
            · have hi : i < xs.length := by
                by_contra hn
                push_neg at hn
                rw [List.getElem?_eq_none hn] at hl
                cases hl
              simp [updateAt, mapIdx, hl, getPath, List.getElem?_set_self hi,
                ih p' hov' c v]
          | null => simp [updateAt]
          | undef => simp [updateAt]
          | bool b => simp [updateAt]
          | num n => simp [updateAt]
          | str t => simp [updateAt]
          | obj fs => simp [updateAt]
      · cases s with
        | field k =>
          cases j with
          | obj fs =>
            cases s' with
            | field k' =>
              have hk : k' ≠ k := fun e => hs (by rw [e])
              simp [updateAt, getPath, lookupField_mapField_ne _ _ _ _ hk]
            | index i' => simp [updateAt, getPath]
          | null => simp [updateAt]
          | undef => simp [updateAt]
          | bool b => simp [updateAt]
          | num n => simp [updateAt]
          | str t => simp [updateAt]
          | arr xs => simp [updateAt]
        | index i =>
          cases j with
          | arr xs =>
            cases s' with
            | field k' => simp [updateAt, getPath]
            | index i' =>
              have hi' : i ≠ i' := fun e => hs (by rw [e])
              rcases hl : xs[i]? with _ | c
              · simp [updateAt, mapIdx, hl]
              · simp [updateAt, mapIdx, hl, getPath, List.getElem?_set_ne hi']
          | null => simp [updateAt]
          | undef => simp [updateAt]
          | bool b => simp [updateAt]
          | num n => simp [updateAt]
          | str t => simp [updateAt]
          | obj fs => simp [updateAt]

/-- One modification row leaves non-overlapping reads unchanged. -/
theorem applyRow_frame (j : Json) (r : Row) (p : JPath)
    (h : ¬ overlaps p r.path) :
    getPath (applyRow j r) p = getPath j p := by
  unfold applyRow
  split
  · exact getPath_updateAt_frame r.path p h j _
  · rfl

/-- A whole list of non-overlapping modification rows leaves a read
unchanged. -/
theorem applyRows_frame (rows : List Row) (j : Json) (p : JPath)
    (h : ∀ r ∈ rows, ¬ overlaps p r.path) :
    getPath (applyRows j rows) p = getPath j p := by
  induction rows generalizing j with
  | nil => rfl
  | cons a rows ih =>
    have hc : applyRows j (a :: rows) = applyRows (applyRow j a) rows := rfl
    rw [hc, ih (applyRow j a) (fun r hr => h r (List.mem_cons_of_mem _ hr)),
      applyRow_frame j a p (h a (List.mem_cons_self _ _))]

/-- C8 counterexample, refuting the round trip as universally stated:
(i) a JSON path that does not resolve in the loaded payload is silently
skipped — re-extraction yields nothing, not the supplied value; and
(ii) a numeric-looking supplied string is smart-coerced on write, so
re-extraction yields the number `123`, not the supplied string `"123"`. -/
theorem payload_roundtrip_counterexample :
    getPath (applyRows (Json.obj []) [⟨[JStep.field "a"], "v", 0⟩]) [JStep.field "a"]
        = none
    ∧ getPath (applyRows (Json.obj [("id", Json.str "x")])
          [⟨[JStep.field "id"], "123", 0⟩]) [JStep.field "id"]
        = some (Json.num 123)
    ∧ Json.num 123 ≠ Json.str "123" := by
  refine ⟨?_, ?_, ?_⟩
  · have hv : parseSmartValue (rowFinalValue "v" 0) = Json.str "v" := rfl
    simp [applyRows, applyRow, updateAt, getPath, lookupField, mapField, hv]
  · have hv : parseSmartValue (rowFinalValue "123" 0) = Json.num 123 := rfl
    simp [applyRows, applyRow, updateAt, getPath, lookupField, mapField, hv]
  · intro h
    cases h

/-- C8 amended: for a request payload and data-table rows whose JSON
paths each resolve to an existing non-root location of the payload and
are pairwise non-overlapping (no path a prefix of another), re-extracting
the modified payload at each row's path yields exactly the smart-coerced
trimmed supplied value, with every `<random>` placeholder replaced by the
row's 3-digit numeral `100 + rnd`, which lies in the range 100–999. -/
theorem payload_roundtrip (j : Json) (rows : List Row)
    (hres : ∀ r ∈ rows, r.path ≠ [] ∧ (getPath j r.path).isSome)
    (hsep : rows.Pairwise (fun a b => ¬ overlaps a.path b.path))
    (hrnd : ∀ r ∈ rows, r.rnd < 900) :
    ∀ r ∈ rows,
      getPath (applyRows j rows) r.path
          = some (parseSmartValue (rowFinalValue r.value r.rnd))
      ∧ 100 ≤ 100 + r.rnd ∧ 100 + r.rnd ≤ 999 := by
  induction rows generalizing j with
  | nil =>
    intro r hr
    cases hr
  | cons a rows ih =>
    rw [List.pairwise_cons] at hsep
    intro r hr
    rcases List.mem_cons.mp hr with rfl | hr'
    · constructor
      · have happ : applyRow j r
            = updateAt r.path j (parseSmartValue (rowFinalValue r.value r.rnd)) := by
          unfold applyRow
          rw [if_pos ⟨(hres r (List.mem_cons_self _ _)).1,
            (hres r (List.mem_cons_self _ _)).2⟩]
        have hchain : applyRows j (r :: rows) = applyRows (applyRow j r) rows := rfl
        rw [hchain, applyRows_frame rows (applyRow j r) r.path
            (fun b hb => hsep.1 b hb), happ]
        exact getPath_updateAt_self r.path j _ (hres r (List.mem_cons_self _ _)).2
      · have := hrnd r (List.mem_cons_self _ _)
        omega
    · have hres' : ∀ b ∈ rows, b.path ≠ [] ∧ (getPath (applyRow j a) b.path).isSome := by
        intro b hb
        refine ⟨(hres b (List.mem_cons_of_mem _ hb)).1, ?_⟩
        rw [applyRow_frame j a b.path (fun hov => hsep.1 b hb (overlaps_symm hov))]
        exact (hres b (List.mem_cons_of_mem _ hb)).2
      exact ih (applyRow j a) hres' hsep.2
        (fun b hb => hrnd b (List.mem_cons_of_mem _ hb)) r hr'

/-- Witness for the amended C8 theorem: a webhook-like payload with two
rows — a keyword value and a `<random>` template — round-trips to the
coerced boolean and to the template with the 3-digit numeral `105`. -/
theorem payload_roundtrip_witness :
    (∀ r ∈ ([⟨[JStep.field "name"], " true ", 0⟩,
             ⟨[JStep.field "url"], "id-<random>", 5⟩] : List Row),
        r.path ≠ []
        ∧ (getPath (Json.obj [("name", Json.str "hook"), ("url", Json.str "https://x")])
            r.path).isSome)
    ∧ getPath (applyRows (Json.obj [("name", Json.str "hook"), ("url", Json.str "https://x")])
          [⟨[JStep.field "name"], " true ", 0⟩, ⟨[JStep.field "url"], "id-<random>", 5⟩])
        [JStep.field "name"] = some (Json.bool true)
    ∧ getPath (applyRows (Json.obj [("name", Json.str "hook"), ("url", Json.str "https://x")])
          [⟨[JStep.field "name"], " true ", 0⟩, ⟨[JStep.field "url"], "id-<random>", 5⟩])
        [JStep.field "url"] = some (Json.str "id-105") := by
  have h := payload_roundtrip
    (Json.obj [("name", Json.str "hook"), ("url", Json.str "https://x")])
    [⟨[JStep.field "name"], " true ", 0⟩, ⟨[JStep.field "url"], "id-<random>", 5⟩]
    (by decide) (by decide) (by decide)
  have h1 := (h ⟨[JStep.field "name"], " true ", 0⟩ (by decide)).1
  have h2 := (h ⟨[JStep.field "url"], "id-<random>", 5⟩ (by decide)).1
  have e1 : parseSmartValue (rowFinalValue " true " 0) = Json.bool true := rfl
  have e2 : parseSmartValue (rowFinalValue "id-<random>" 5) = Json.str "id-105" := rfl
  exact ⟨by decide, e1 ▸ h1, e2 ▸ h2⟩
